import Mathlib

set_option maxRecDepth 4000

/-!
Shallow embedding of the G233 SPI master driver and the SPI-NOR flash
command protocol from `tests/gevico/tcg/riscv64/test-flash-read-interrupt.c`
and `tests/gevico/tcg/riscv64/test-spi-cs.c`.

Machine integers are modelled as `Nat`, with explicit masking exactly where
the C code masks (`& 0xFF` on data-register reads, the 32-bit complement in
the handler's control-register write-back).  Hardware registers that the
software only reads (status register, data register on read) are inputs to
the model; registers the software writes are outputs, recorded as effects.
-/

/-- Bit SPI_CR2_TXEIE: transmit-empty interrupt enable, bit 7 of control register 2. -/
def SPI_CR2_TXEIE : Nat := 1 <<< 7

/-- Bit SPI_CR2_RXNEIE: receive-not-empty interrupt enable, bit 6 of control register 2. -/
def SPI_CR2_RXNEIE : Nat := 1 <<< 6

/-- Bit SPI_CR2_ERRIE: error interrupt enable, bit 5 of control register 2. -/
def SPI_CR2_ERRIE : Nat := 1 <<< 5

/-- Bit SPI_SR_RXNE: receive buffer not empty, bit 0 of the status register. -/
def SPI_SR_RXNE : Nat := 1 <<< 0

/-- Bit SPI_SR_TXE: transmit buffer empty, bit 1 of the status register. -/
def SPI_SR_TXE : Nat := 1 <<< 1

/-- Bit SPI_SR_UDR: underrun flag, bit 3 of the status register. -/
def SPI_SR_UDR : Nat := 1 <<< 3

/-- Bit SPI_SR_OVR: overrun flag, bit 6 of the status register. -/
def SPI_SR_OVR : Nat := 1 <<< 6

/-- Bit SPI_CSCTRL_CS0_EN: chip-select line 0 enable, bit 0 of the CS control register. -/
def SPI_CSCTRL_CS0_EN : Nat := 1 <<< 0

/-- Bit SPI_CSCTRL_CS1_EN: chip-select line 1 enable, bit 1 of the CS control register. -/
def SPI_CSCTRL_CS1_EN : Nat := 1 <<< 1

/-- Bit SPI_CSCTRL_CS0_ACT: chip-select line 0 active, bit 4 of the CS control register. -/
def SPI_CSCTRL_CS0_ACT : Nat := 1 <<< 4

/-- Bit SPI_CSCTRL_CS1_ACT: chip-select line 1 active, bit 5 of the CS control register. -/
def SPI_CSCTRL_CS1_ACT : Nat := 1 <<< 5

/-- The shared interrupt-driven transfer context `spi_transfer_state_t`
(`test-flash-read-interrupt.c`, lines 109-118).  The two byte buffers are
modelled as lists of byte values; the `volatile int` cursors and counters are
natural numbers (they start at 0 and are only ever incremented), and the two
completion flags, written only with 0/1 in the C code, are booleans. -/
structure spi_transfer_state_t where
  tx_buffer : List Nat
  rx_buffer : List Nat
  tx_index : Nat
  rx_index : Nat
  total_bytes : Nat
  transfer_complete : Bool
  error_occurred : Bool
  interrupt_count : Nat
deriving DecidableEq

/-- Hardware effects of one interrupt-handler invocation: how many times the
data register was read, the bytes written to the data register (in order),
and the value written to control register 2, if any. -/
structure HandlerEffects where
  drReads : Nat
  drWrites : List Nat
  cr2Write : Option Nat
deriving DecidableEq

/-- The SPI interrupt handler `spi0_interrupt_handler`
(`test-flash-read-interrupt.c`, lines 123-182).  Inputs `sr` and `cr2` are the
status- and control-register snapshots taken at entry, and `drData` is the
value the data register delivers if the handler reads it.  The result is the
updated transfer context together with the hardware effects of the call. -/
def spi0_interrupt_handler (sr cr2 drData : Nat) (s0 : spi_transfer_state_t) :
    spi_transfer_state_t × HandlerEffects :=
  let s := { s0 with interrupt_count := s0.interrupt_count + 1 }
  -- Check for error conditions first
  if cr2 &&& SPI_CR2_ERRIE ≠ 0 ∧ sr &&& (SPI_SR_UDR ||| SPI_SR_OVR) ≠ 0 then
    ({ s with error_occurred := true },
     { drReads := 0, drWrites := [], cr2Write := none })
  else
    -- Handle RXNE interrupt: receive data
    let rxTaken : Bool := decide (cr2 &&& SPI_CR2_RXNEIE ≠ 0 ∧ sr &&& SPI_SR_RXNE ≠ 0)
    let s1 : spi_transfer_state_t :=
      if rxTaken then
        let received_byte := drData &&& 0xFF
        if s.rx_index < s.total_bytes then
          { s with rx_buffer := s.rx_buffer.set s.rx_index received_byte,
                   rx_index := s.rx_index + 1 }
        else s
      else s
    let reads := if rxTaken then 1 else 0
    -- Handle TXE interrupt: send next byte
    if cr2 &&& SPI_CR2_TXEIE ≠ 0 ∧ sr &&& SPI_SR_TXE ≠ 0 then
      if s1.tx_index < s1.total_bytes then
        ({ s1 with tx_index := s1.tx_index + 1 },
         { drReads := reads, drWrites := [s1.tx_buffer.getD s1.tx_index 0],
           cr2Write := none })
      else if s1.rx_index < s1.total_bytes then
        -- all bytes sent, send dummy data to keep receiving
        (s1, { drReads := reads, drWrites := [0x00], cr2Write := none })
      else
        -- all done: both TX and RX complete
        ({ s1 with transfer_complete := true },
         { drReads := reads, drWrites := [],
           cr2Write := some (cr2 &&& (0xFFFFFFFF ^^^ (SPI_CR2_TXEIE ||| SPI_CR2_RXNEIE))) })
    else
      (s1, { drReads := reads, drWrites := [], cr2Write := none })

/-- Maximum timeout count of the interrupt-driven transfer wait loop
(`test-flash-read-interrupt.c`, line 218). -/
def max_timeout : Nat := 100000

/-- Deliver a list of interrupt events to the handler.  Each event is a pair
of the status-register snapshot and the data-register value the hardware
supplies for that invocation; the handler runs with the current value of
control register 2, and a control-register write performed by the handler is
visible to the following events. -/
def deliverEvents : List (Nat × Nat) → Nat → spi_transfer_state_t →
    Nat × spi_transfer_state_t
  | [], cr2, s => (cr2, s)
  | (sr, dr) :: rest, cr2, s =>
    let p := spi0_interrupt_handler sr cr2 dr s
    deliverEvents rest (p.2.cr2Write.getD cr2) p.1

/-- The wait loop of `g233_spi_transfer_interrupt`
(`test-flash-read-interrupt.c`, lines 236-240): while neither completion nor
error is observed and the timeout bound is not reached, wait one iteration
(during which the scheduled interrupts of that iteration fire) and increment
the timeout counter.  `sched i` gives the interrupt events that fire during
the delay of the iteration whose entry check saw `timeout_count = i`; the
fuel argument makes the recursion structural and is instantiated with
`max_timeout`, which the counter can never exceed. -/
def spiWaitLoop (sched : Nat → List (Nat × Nat)) :
    Nat → Nat → Nat → spi_transfer_state_t → Nat × Nat × spi_transfer_state_t
  | 0, timeout_count, cr2, s => (timeout_count, cr2, s)
  | fuel + 1, timeout_count, cr2, s =>
    if s.transfer_complete = false ∧ s.error_occurred = false ∧
        timeout_count < max_timeout then
      let p := deliverEvents (sched timeout_count) cr2 s
      spiWaitLoop sched fuel (timeout_count + 1) p.1 p.2
    else
      (timeout_count, cr2, s)

/-- Result of one interrupt-driven transfer: the returned code, the value of
control register 2 after the function's final write, the final value of the
local `timeout_count`, and the final transfer context. -/
structure TransferResult where
  ret : Int
  cr2After : Nat
  timeoutCount : Nat
  finalState : spi_transfer_state_t
deriving DecidableEq

/-- The interrupt-driven transfer `g233_spi_transfer_interrupt`
(`test-flash-read-interrupt.c`, lines 215-257): initialize the shared
context, enable the TXE/RXNE/error interrupts in one write of control
register 2, busy-wait on the context flags with a bounded timeout, then
unconditionally write 0 to control register 2 and return -1 on error, -2 on
timeout, 0 on success.  Interrupt arrival is modelled by `sched`, which says
which interrupts fire during each wait-loop iteration; `rx_data` is the
caller's receive buffer as passed in. -/
def g233_spi_transfer_interrupt (tx_data rx_data : List Nat) (len : Nat)
    (sched : Nat → List (Nat × Nat)) : TransferResult :=
  let s0 : spi_transfer_state_t :=
    { tx_buffer := tx_data, rx_buffer := rx_data,
      tx_index := 0, rx_index := 0, total_bytes := len,
      transfer_complete := false, error_occurred := false,
      interrupt_count := 0 }
  let cr2init := SPI_CR2_TXEIE ||| SPI_CR2_RXNEIE ||| SPI_CR2_ERRIE
  let q := spiWaitLoop sched max_timeout 0 cr2init s0
  let timeout_count := q.1
  let s := q.2.2
  -- disable interrupts: REG32(SPI_CR2_OFFSET) = 0
  let cr2After := 0
  if s.error_occurred then
    { ret := -1, cr2After := cr2After, timeoutCount := timeout_count, finalState := s }
  else if timeout_count ≥ max_timeout then
    { ret := -2, cr2After := cr2After, timeoutCount := timeout_count, finalState := s }
  else
    { ret := 0, cr2After := cr2After, timeoutCount := timeout_count, finalState := s }

/-- Chip-select line identifier FLASH_CS0 (`test-spi-cs.c`, line 82). -/
def FLASH_CS0 : Nat := 0

/-- Chip-select line identifier FLASH_CS1 (`test-spi-cs.c`, line 83). -/
def FLASH_CS1 : Nat := 1

/-- The chip-select assert routine `g233_spi_cs_assert`
(`test-spi-cs.c`, lines 108-119): build the enable+active pair for the
requested line (or 0 for an unknown line) and store it to the chip-select
control register.  The store replaces the whole register, so the prior
register value `csctrlOld` does not influence the new one; it is kept as an
argument so that theorems can quantify over it. -/
def g233_spi_cs_assert (cs : Nat) (csctrlOld : Nat) : Nat :=
  let ctrl : Nat := 0
  let ctrl :=
    if cs = FLASH_CS0 then SPI_CSCTRL_CS0_EN ||| SPI_CSCTRL_CS0_ACT
    else if cs = FLASH_CS1 then SPI_CSCTRL_CS1_EN ||| SPI_CSCTRL_CS1_ACT
    else ctrl
  let _ := csctrlOld
  ctrl

/-- The chip-select deassert routine `g233_spi_cs_deassert`
(`test-spi-cs.c`, lines 121-125): the value written to the chip-select
control register, clearing every enable and active bit. -/
def g233_spi_cs_deassert : Nat := 0

/-- Outcome of one call to the SPI transfer engine, as seen by the flash
protocol layer: the returned code and the contents of the receive buffer
after the call. -/
abbrev TransferOracle := List Nat → Nat → Int × List Nat

/-- One externally visible step of a flash protocol operation. -/
inductive FlashStep where
  | csAssert
  | csDeassert
  | spiTransfer (tx : List Nat) (len : Nat) (ret : Int)
  | waitBusy
deriving DecidableEq

/-- Big-endian three-byte address split used by the flash commands
(`test-flash-read-interrupt.c`, lines 364-366). -/
def addr_bytes (addr : Nat) : List Nat :=
  [(addr >>> 16) &&& 0xFF, (addr >>> 8) &&& 0xFF, addr &&& 0xFF]

/-- The interrupt-driven `flash_read_status`
(`test-flash-read-interrupt.c`, lines 259-281): a 2-byte transaction sending
the read-status command 0x05 plus one dummy byte; the status defaults to
0xFF (busy) and is replaced by the second received byte only when the
transfer succeeds. -/
def flash_read_status (spi : TransferOracle) : Nat :=
  let tx_data := [0x05, 0x00]
  let p := spi tx_data 2
  if p.1 = 0 then p.2.getD 1 0 else 0xFF

/-- The interrupt-driven `flash_read_jedec_id`
(`test-flash-read-interrupt.c`, lines 283-312): a 4-byte transaction sending
the read-JEDEC-ID command 0x9F plus three dummy bytes; on success the ID is
assembled from received bytes 1, 2, 3 (byte 0 is the command-slot echo), and
on failure the initial value 0 is returned. -/
def flash_read_jedec_id (spi : TransferOracle) : Nat :=
  let tx_data := [0x9F, 0x00, 0x00, 0x00]
  let p := spi tx_data 4
  if p.1 = 0 then
    ((p.2.getD 1 0) <<< 16) ||| ((p.2.getD 2 0) <<< 8) ||| p.2.getD 3 0
  else 0

/-- The interrupt-driven `flash_write_enable`
(`test-flash-read-interrupt.c`, lines 314-328) as its step trace: assert the
chip select, run a 1-byte transaction with the write-enable command 0x06
(the returned code is ignored), deassert the chip select. -/
def flash_write_enable (spi : TransferOracle) : List FlashStep :=
  let tx_data := [0x06]
  let p := spi tx_data 1
  [.csAssert, .spiTransfer tx_data 1 p.1, .csDeassert]

/-- The interrupt-driven `flash_sector_erase`
(`test-flash-read-interrupt.c`, lines 355-389) as its step trace: write
enable, then assert the chip select, run the 4-byte transaction with the
sector-erase command 0x20 and the big-endian address, deassert the chip
select, and wait for the flash to become ready.  The code never inspects the
transfer's returned code, so every step is unconditional. -/
def flash_sector_erase (spi : TransferOracle) (addr : Nat) : List FlashStep :=
  let tx_data := 0x20 :: addr_bytes addr
  let p := spi tx_data 4
  flash_write_enable spi ++
    [.csAssert, .spiTransfer tx_data 4 p.1, .csDeassert, .waitBusy]

/-- The interrupt-driven `flash_page_program`
(`test-flash-read-interrupt.c`, lines 391-428) as its step trace: write
enable, then assert the chip select, run the (4+len)-byte transaction with
the page-program command 0x02, the big-endian address and the payload,
deassert the chip select, and wait for the flash to become ready.  The code
never inspects the transfer's returned code, so every step is
unconditional. -/
def flash_page_program (spi : TransferOracle) (addr : Nat)
    (data : List Nat) : List FlashStep :=
  let tx_data := 0x02 :: (addr_bytes addr ++ data)
  let p := spi tx_data (4 + data.length)
  flash_write_enable spi ++
    [.csAssert, .spiTransfer tx_data (4 + data.length) p.1, .csDeassert, .waitBusy]

/-- Context invariant maintained by the interrupt handler: both cursors stay
within the transaction length, and completion is only ever marked with both
cursors at the transaction length. -/
def ctxInv (s : spi_transfer_state_t) : Prop :=
  s.tx_index ≤ s.total_bytes ∧ s.rx_index ≤ s.total_bytes ∧
    (s.transfer_complete = true →
      s.tx_index = s.total_bytes ∧ s.rx_index = s.total_bytes)

theorem handler_frame (sr cr2 dr : Nat) (s : spi_transfer_state_t) :
    (spi0_interrupt_handler sr cr2 dr s).1.total_bytes = s.total_bytes ∧
    (spi0_interrupt_handler sr cr2 dr s).1.tx_buffer = s.tx_buffer := by
  unfold spi0_interrupt_handler
  dsimp only
  split_ifs <;> simp

theorem handler_inv (sr cr2 dr : Nat) (s : spi_transfer_state_t)
    (h : ctxInv s) : ctxInv (spi0_interrupt_handler sr cr2 dr s).1 := by
  obtain ⟨htx, hrx, hc⟩ := h
  unfold spi0_interrupt_handler ctxInv
  dsimp only
  rcases hcb : s.transfer_complete with _ | _
  · rw [hcb] at hc
    split_ifs <;> simp_all <;> omega
  · obtain ⟨h1, h2⟩ := hc hcb
    split_ifs <;> simp_all

theorem deliverEvents_inv (evs : List (Nat × Nat)) (cr2 : Nat)
    (s : spi_transfer_state_t) (h : ctxInv s) :
    ctxInv (deliverEvents evs cr2 s).2 := by
  induction evs generalizing cr2 s with
  | nil => exact h
  | cons e rest ih =>
    obtain ⟨sr, dr⟩ := e
    exact ih _ _ (handler_inv sr cr2 dr s h)

theorem deliverEvents_frame (evs : List (Nat × Nat)) (cr2 : Nat)
    (s : spi_transfer_state_t) :
    (deliverEvents evs cr2 s).2.total_bytes = s.total_bytes := by
  induction evs generalizing cr2 s with
  | nil => rfl
  | cons e rest ih =>
    obtain ⟨sr, dr⟩ := e
    exact (ih _ _).trans (handler_frame sr cr2 dr s).1

theorem spiWaitLoop_inv (sched : Nat → List (Nat × Nat)) (fuel tc cr2 : Nat)
    (s : spi_transfer_state_t) (h : ctxInv s) :
    ctxInv (spiWaitLoop sched fuel tc cr2 s).2.2 := by
  induction fuel generalizing tc cr2 s with
  | zero => exact h
  | succ n ih =>
    unfold spiWaitLoop
    dsimp only
    split_ifs with hg
    · exact ih _ _ _ (deliverEvents_inv _ _ _ h)
    · exact h

theorem spiWaitLoop_frame (sched : Nat → List (Nat × Nat)) (fuel tc cr2 : Nat)
    (s : spi_transfer_state_t) :
    (spiWaitLoop sched fuel tc cr2 s).2.2.total_bytes = s.total_bytes := by
  induction fuel generalizing tc cr2 s with
  | zero => rfl
  | succ n ih =>
    unfold spiWaitLoop
    dsimp only
    split_ifs with hg
    · exact (ih _ _ _).trans (deliverEvents_frame _ _ _)
    · rfl

theorem spiWaitLoop_exit (sched : Nat → List (Nat × Nat)) (fuel tc cr2 : Nat)
    (s : spi_transfer_state_t) :
    (spiWaitLoop sched fuel tc cr2 s).1 = tc + fuel ∨
      ¬((spiWaitLoop sched fuel tc cr2 s).2.2.transfer_complete = false ∧
        (spiWaitLoop sched fuel tc cr2 s).2.2.error_occurred = false ∧
        (spiWaitLoop sched fuel tc cr2 s).1 < max_timeout) := by
  induction fuel generalizing tc cr2 s with
  | zero => left; rfl
  | succ n ih =>
    unfold spiWaitLoop
    dsimp only
    split_ifs with hg
    · rcases ih (tc + 1)
        (deliverEvents (sched tc) cr2 s).1 (deliverEvents (sched tc) cr2 s).2 with h | h
      · left; omega
      · right; exact h
    · right; exact hg

/-- Initial transfer context built by `g233_spi_transfer_interrupt` before
enabling interrupts. -/
def initState (tx rx : List Nat) (len : Nat) : spi_transfer_state_t :=
  { tx_buffer := tx, rx_buffer := rx, tx_index := 0, rx_index := 0,
    total_bytes := len, transfer_complete := false, error_occurred := false,
    interrupt_count := 0 }

theorem transfer_components (tx rx : List Nat) (len : Nat)
    (sched : Nat → List (Nat × Nat)) :
    (g233_spi_transfer_interrupt tx rx len sched).finalState =
      (spiWaitLoop sched max_timeout 0
        (SPI_CR2_TXEIE ||| SPI_CR2_RXNEIE ||| SPI_CR2_ERRIE)
        (initState tx rx len)).2.2 ∧
    (g233_spi_transfer_interrupt tx rx len sched).timeoutCount =
      (spiWaitLoop sched max_timeout 0
        (SPI_CR2_TXEIE ||| SPI_CR2_RXNEIE ||| SPI_CR2_ERRIE)
        (initState tx rx len)).1 := by
  unfold g233_spi_transfer_interrupt initState
  dsimp only
  split_ifs <;> exact ⟨rfl, rfl⟩

theorem transfer_ret_spec (tx rx : List Nat) (len : Nat)
    (sched : Nat → List (Nat × Nat)) :
    ((g233_spi_transfer_interrupt tx rx len sched).ret = -1 ↔
      (g233_spi_transfer_interrupt tx rx len sched).finalState.error_occurred = true) ∧
    ((g233_spi_transfer_interrupt tx rx len sched).ret = -2 ↔
      ((g233_spi_transfer_interrupt tx rx len sched).finalState.error_occurred = false ∧
        max_timeout ≤ (g233_spi_transfer_interrupt tx rx len sched).timeoutCount)) ∧
    ((g233_spi_transfer_interrupt tx rx len sched).ret = 0 ↔
      ((g233_spi_transfer_interrupt tx rx len sched).finalState.error_occurred = false ∧
        (g233_spi_transfer_interrupt tx rx len sched).timeoutCount < max_timeout)) ∧
    (g233_spi_transfer_interrupt tx rx len sched).cr2After = 0 := by
  unfold g233_spi_transfer_interrupt
  dsimp only
  split_ifs with h1 h2 <;> simp_all

theorem initState_inv (tx rx : List Nat) (len : Nat) :
    ctxInv (initState tx rx len) := by
  refine ⟨Nat.zero_le _, Nat.zero_le _, ?_⟩
  intro hh
  simp [initState] at hh

theorem transfer_success_state (tx rx : List Nat) (len : Nat)
    (sched : Nat → List (Nat × Nat))
    (h : (g233_spi_transfer_interrupt tx rx len sched).ret = 0) :
    (g233_spi_transfer_interrupt tx rx len sched).finalState.transfer_complete = true ∧
    (g233_spi_transfer_interrupt tx rx len sched).finalState.error_occurred = false ∧
    (g233_spi_transfer_interrupt tx rx len sched).finalState.tx_index = len ∧
    (g233_spi_transfer_interrupt tx rx len sched).finalState.rx_index = len := by
  have hspec := ((transfer_ret_spec tx rx len sched).2.2.1).mp h
  have hexit := spiWaitLoop_exit sched max_timeout 0
    (SPI_CR2_TXEIE ||| SPI_CR2_RXNEIE ||| SPI_CR2_ERRIE) (initState tx rx len)
  have hinv := spiWaitLoop_inv sched max_timeout 0
    (SPI_CR2_TXEIE ||| SPI_CR2_RXNEIE ||| SPI_CR2_ERRIE) (initState tx rx len)
    (initState_inv tx rx len)
  have hframe := spiWaitLoop_frame sched max_timeout 0
    (SPI_CR2_TXEIE ||| SPI_CR2_RXNEIE ||| SPI_CR2_ERRIE) (initState tx rx len)
  obtain ⟨hfs, htc⟩ := transfer_components tx rx len sched
  rw [hfs, htc] at hspec
  rw [hfs]
  obtain ⟨herr, htlt⟩ := hspec
  have hcomplete : (spiWaitLoop sched max_timeout 0
      (SPI_CR2_TXEIE ||| SPI_CR2_RXNEIE ||| SPI_CR2_ERRIE)
      (initState tx rx len)).2.2.transfer_complete = true := by
    rcases hexit with hx | hx
    · omega
    · rcases Bool.eq_false_or_eq_true ((spiWaitLoop sched max_timeout 0
        (SPI_CR2_TXEIE ||| SPI_CR2_RXNEIE ||| SPI_CR2_ERRIE)
        (initState tx rx len)).2.2.transfer_complete) with hc | hc
      · exact hc
      · exact absurd ⟨hc, herr, htlt⟩ hx
  have htotal : (spiWaitLoop sched max_timeout 0
      (SPI_CR2_TXEIE ||| SPI_CR2_RXNEIE ||| SPI_CR2_ERRIE)
      (initState tx rx len)).2.2.total_bytes = len := by
    rw [hframe]; rfl
  obtain ⟨hx1, hx2⟩ := hinv.2.2 hcomplete
  exact ⟨hcomplete, herr, by omega, by omega⟩

/-- Claim C1: whenever error interrupts are enabled (CR2 has ERRIE set) and
the status snapshot shows overrun or underrun, the handler sets
`error_occurred` and returns immediately: both cursors and the receive
buffer are unchanged (even if receive-not-empty is also set in the same
snapshot), and the invocation performs no data-register read or write and no
control-register write. -/
theorem handler_error_priority (sr cr2 dr : Nat) (s : spi_transfer_state_t)
    (herrie : cr2 &&& SPI_CR2_ERRIE ≠ 0)
    (herr : sr &&& (SPI_SR_UDR ||| SPI_SR_OVR) ≠ 0) :
    (spi0_interrupt_handler sr cr2 dr s).1.error_occurred = true ∧
    (spi0_interrupt_handler sr cr2 dr s).1.tx_index = s.tx_index ∧
    (spi0_interrupt_handler sr cr2 dr s).1.rx_index = s.rx_index ∧
    (spi0_interrupt_handler sr cr2 dr s).1.rx_buffer = s.rx_buffer ∧
    (spi0_interrupt_handler sr cr2 dr s).2.drReads = 0 ∧
    (spi0_interrupt_handler sr cr2 dr s).2.drWrites = [] ∧
    (spi0_interrupt_handler sr cr2 dr s).2.cr2Write = none := by
  unfold spi0_interrupt_handler
  dsimp only
  rw [if_pos (show cr2 &&& SPI_CR2_ERRIE ≠ 0 ∧
    sr &&& (SPI_SR_UDR ||| SPI_SR_OVR) ≠ 0 from ⟨herrie, herr⟩)]
  exact ⟨rfl, rfl, rfl, rfl, rfl, rfl, rfl⟩

/-- Witness for C1: a concrete invocation with ERRIE enabled and a snapshot
showing overrun together with receive-not-empty. -/
theorem handler_error_priority_witness :
    (spi0_interrupt_handler 65 224 0 (initState [7] [0] 1)).1.error_occurred = true ∧
    (spi0_interrupt_handler 65 224 0 (initState [7] [0] 1)).1.tx_index =
      (initState [7] [0] 1).tx_index ∧
    (spi0_interrupt_handler 65 224 0 (initState [7] [0] 1)).1.rx_index =
      (initState [7] [0] 1).rx_index ∧
    (spi0_interrupt_handler 65 224 0 (initState [7] [0] 1)).1.rx_buffer =
      (initState [7] [0] 1).rx_buffer ∧
    (spi0_interrupt_handler 65 224 0 (initState [7] [0] 1)).2.drReads = 0 ∧
    (spi0_interrupt_handler 65 224 0 (initState [7] [0] 1)).2.drWrites = [] ∧
    (spi0_interrupt_handler 65 224 0 (initState [7] [0] 1)).2.cr2Write = none :=
  handler_error_priority 65 224 0 (initState [7] [0] 1) (by decide) (by decide)

/-- Context used to refute claim C2: a transfer context whose `error_occurred`
flag is already set while the receive cursor has not reached `total_bytes`. -/
def erroredMidTransfer : spi_transfer_state_t :=
  { tx_buffer := [0x11, 0x22], rx_buffer := [0, 0], tx_index := 1,
    rx_index := 0, total_bytes := 2, transfer_complete := false,
    error_occurred := true, interrupt_count := 3 }

/-- Counterexample to claim C2 as stated: in a context with `error_occurred`
already true, an invocation whose snapshot shows receive-not-empty signaled
and enabled (and no enabled error condition) still advances `rx_index` — the
handler never consults the terminal flags. -/
theorem handler_terminal_flags_cex :
    erroredMidTransfer.error_occurred = true ∧
    (spi0_interrupt_handler SPI_SR_RXNE SPI_CR2_RXNEIE 0x42
        erroredMidTransfer).1.rx_index ≠ erroredMidTransfer.rx_index := by
  decide

/-- Claim C2 as amended: once both cursors have reached `total_bytes` — which
holds in every context in which the handler has set `transfer_complete`,
since completion is only marked with both cursors at `total_bytes` — any
further invocation of the handler, with any status/control snapshot, leaves
`tx_index` and `rx_index` unchanged.  (The `error_occurred` flag alone does
not suppress cursor advancement, as the counterexample shows.) -/
theorem handler_cursors_stable (sr cr2 dr : Nat) (s : spi_transfer_state_t) :
    (s.total_bytes ≤ s.tx_index → s.total_bytes ≤ s.rx_index →
      (spi0_interrupt_handler sr cr2 dr s).1.tx_index = s.tx_index ∧
      (spi0_interrupt_handler sr cr2 dr s).1.rx_index = s.rx_index) ∧
    (ctxInv s → s.transfer_complete = true →
      (spi0_interrupt_handler sr cr2 dr s).1.tx_index = s.tx_index ∧
      (spi0_interrupt_handler sr cr2 dr s).1.rx_index = s.rx_index) := by
  have base : ∀ htx : s.total_bytes ≤ s.tx_index, ∀ hrx : s.total_bytes ≤ s.rx_index,
      (spi0_interrupt_handler sr cr2 dr s).1.tx_index = s.tx_index ∧
      (spi0_interrupt_handler sr cr2 dr s).1.rx_index = s.rx_index := by
    intro htx hrx
    unfold spi0_interrupt_handler
    dsimp only
    split_ifs <;> simp_all <;> omega
  refine ⟨base, ?_⟩
  intro hinv hcompl
  obtain ⟨h1, h2⟩ := hinv.2.2 hcompl
  exact base (le_of_eq h1.symm) (le_of_eq h2.symm)

/-- Witness for the amended C2: a concrete completed context (both cursors at
`total_bytes`) on which an invocation with both data interrupts signaled
leaves the cursors unchanged. -/
theorem handler_cursors_stable_witness :
    (spi0_interrupt_handler 3 224 0x99
        { tx_buffer := [0x11, 0x22], rx_buffer := [0x33, 0x44], tx_index := 2,
          rx_index := 2, total_bytes := 2, transfer_complete := true,
          error_occurred := false, interrupt_count := 4 }).1.tx_index =
      (2 : Nat) ∧
    (spi0_interrupt_handler 3 224 0x99
        { tx_buffer := [0x11, 0x22], rx_buffer := [0x33, 0x44], tx_index := 2,
          rx_index := 2, total_bytes := 2, transfer_complete := true,
          error_occurred := false, interrupt_count := 4 }).1.rx_index =
      (2 : Nat) :=
  (handler_cursors_stable 3 224 0x99
    { tx_buffer := [0x11, 0x22], rx_buffer := [0x33, 0x44], tx_index := 2,
      rx_index := 2, total_bytes := 2, transfer_complete := true,
      error_occurred := false, interrupt_count := 4 }).1
    (by decide) (by decide)

/-- Transfer oracle that reports a hardware-error failure (-1) for every
transaction, used to refute claim C3. -/
def failingSpi : TransferOracle := fun _ _ => (-1, [])

/-- Counterexample to claim C3 as stated: when every transfer reports the
failure value -1, `flash_sector_erase` and `flash_page_program` still run
the busy wait as their final step — the erase/program command transaction
fails with -1, yet the trace ends with `waitBusy` instead of aborting. -/
theorem flash_erase_program_no_abort_cex :
    (flash_sector_erase failingSpi 0).contains
      (.spiTransfer [0x20, 0x00, 0x00, 0x00] 4 (-1)) = true ∧
    (flash_sector_erase failingSpi 0).getLast? = some .waitBusy ∧
    (flash_page_program failingSpi 0 [0xAB]).contains
      (.spiTransfer [0x02, 0x00, 0x00, 0x00, 0xAB] 5 (-1)) = true ∧
    (flash_page_program failingSpi 0 [0xAB]).getLast? = some .waitBusy := by
  decide

/-- Claim C3 as amended: `flash_sector_erase` and `flash_page_program` never
inspect the result of their command transfer; whatever the transfer engine
reports, the higher-level operation continues unconditionally and its final
step is always the busy wait. -/
theorem flash_erase_program_wait_busy (spi : TransferOracle) (addr : Nat)
    (data : List Nat) :
    (flash_sector_erase spi addr).getLast? = some .waitBusy ∧
    (flash_page_program spi addr data).getLast? = some .waitBusy := by
  unfold flash_sector_erase flash_page_program
  dsimp only
  rw [List.getLast?_append_of_ne_nil, List.getLast?_append_of_ne_nil] <;> simp

/-- Claim C4: every interrupt-driven transfer returns exactly one of -1, -2
and 0: it returns -1 exactly when `error_occurred` was set, -2 exactly when
no error occurred and the bounded wait exhausted all `max_timeout` (100000)
iterations without the loop observing completion or error, and 0 otherwise;
and on every exit path the function's final write leaves control register 2
equal to 0, disabling the TXE/RXNE/error interrupts. -/
theorem transfer_interrupt_result_spec (tx rx : List Nat) (len : Nat)
    (sched : Nat → List (Nat × Nat)) :
    ((g233_spi_transfer_interrupt tx rx len sched).ret = -1 ∨
      (g233_spi_transfer_interrupt tx rx len sched).ret = -2 ∨
      (g233_spi_transfer_interrupt tx rx len sched).ret = 0) ∧
    ((g233_spi_transfer_interrupt tx rx len sched).ret = -1 ↔
      (g233_spi_transfer_interrupt tx rx len sched).finalState.error_occurred = true) ∧
    ((g233_spi_transfer_interrupt tx rx len sched).ret = -2 ↔
      ((g233_spi_transfer_interrupt tx rx len sched).finalState.error_occurred = false ∧
        max_timeout ≤ (g233_spi_transfer_interrupt tx rx len sched).timeoutCount)) ∧
    ((g233_spi_transfer_interrupt tx rx len sched).ret = 0 ↔
      ((g233_spi_transfer_interrupt tx rx len sched).finalState.error_occurred = false ∧
        (g233_spi_transfer_interrupt tx rx len sched).timeoutCount < max_timeout)) ∧
    (g233_spi_transfer_interrupt tx rx len sched).cr2After = 0 := by
  obtain ⟨h1, h2, h3, h4⟩ := transfer_ret_spec tx rx len sched
  refine ⟨?_, h1, h2, h3, h4⟩
  rcases Bool.eq_false_or_eq_true
      ((g233_spi_transfer_interrupt tx rx len sched).finalState.error_occurred) with he | he
  · exact Or.inl (h1.mpr he)
  · by_cases ht : max_timeout ≤ (g233_spi_transfer_interrupt tx rx len sched).timeoutCount
    · exact Or.inr (Or.inl (h2.mpr ⟨he, ht⟩))
    · exact Or.inr (Or.inr (h3.mpr ⟨he, by omega⟩))

theorem cr2_disable_clears (cr2 : Nat) :
    (cr2 &&& (0xFFFFFFFF ^^^ (SPI_CR2_TXEIE ||| SPI_CR2_RXNEIE))) &&& SPI_CR2_TXEIE = 0 ∧
    (cr2 &&& (0xFFFFFFFF ^^^ (SPI_CR2_TXEIE ||| SPI_CR2_RXNEIE))) &&& SPI_CR2_RXNEIE = 0 := by
  refine ⟨?_, ?_⟩
  · rw [Nat.land_assoc,
      show (0xFFFFFFFF ^^^ (SPI_CR2_TXEIE ||| SPI_CR2_RXNEIE)) &&& SPI_CR2_TXEIE = 0
        from by decide, Nat.and_zero]
  · rw [Nat.land_assoc,
      show (0xFFFFFFFF ^^^ (SPI_CR2_TXEIE ||| SPI_CR2_RXNEIE)) &&& SPI_CR2_RXNEIE = 0
        from by decide, Nat.and_zero]

/-- Claim C5: (first part) whenever transmit-empty is signaled and enabled,
no enabled error condition is present, and both cursors have reached the
transaction length, the handler marks the transfer complete and writes back
control register 2 with the TXE and RXNE interrupt-enable bits cleared; and
(second part) every transfer of length at least 1 that returns success ends
with both cursors equal to the length, `transfer_complete` set and
`error_occurred` clear. -/
theorem handler_completion_spec :
    (∀ sr cr2 dr : Nat, ∀ s : spi_transfer_state_t,
      cr2 &&& SPI_CR2_TXEIE ≠ 0 → sr &&& SPI_SR_TXE ≠ 0 →
      ¬(cr2 &&& SPI_CR2_ERRIE ≠ 0 ∧ sr &&& (SPI_SR_UDR ||| SPI_SR_OVR) ≠ 0) →
      s.tx_index = s.total_bytes → s.rx_index = s.total_bytes →
      (spi0_interrupt_handler sr cr2 dr s).1.transfer_complete = true ∧
      (spi0_interrupt_handler sr cr2 dr s).2.cr2Write =
        some (cr2 &&& (0xFFFFFFFF ^^^ (SPI_CR2_TXEIE ||| SPI_CR2_RXNEIE))) ∧
      (cr2 &&& (0xFFFFFFFF ^^^ (SPI_CR2_TXEIE ||| SPI_CR2_RXNEIE))) &&&
        SPI_CR2_TXEIE = 0 ∧
      (cr2 &&& (0xFFFFFFFF ^^^ (SPI_CR2_TXEIE ||| SPI_CR2_RXNEIE))) &&&
        SPI_CR2_RXNEIE = 0) ∧
    (∀ (tx rx : List Nat) (len : Nat) (sched : Nat → List (Nat × Nat)),
      1 ≤ len → (g233_spi_transfer_interrupt tx rx len sched).ret = 0 →
      (g233_spi_transfer_interrupt tx rx len sched).finalState.tx_index = len ∧
      (g233_spi_transfer_interrupt tx rx len sched).finalState.rx_index = len ∧
      (g233_spi_transfer_interrupt tx rx len sched).finalState.transfer_complete = true ∧
      (g233_spi_transfer_interrupt tx rx len sched).finalState.error_occurred = false) := by
  constructor
  · intro sr cr2 dr s htxe htxs hnoerr htx hrx
    obtain ⟨hc1, hc2⟩ := cr2_disable_clears cr2
    refine ⟨?_, ?_, hc1, hc2⟩ <;>
      · unfold spi0_interrupt_handler
        dsimp only
        rw [if_neg hnoerr, if_pos (⟨htxe, htxs⟩ :
          cr2 &&& SPI_CR2_TXEIE ≠ 0 ∧ sr &&& SPI_SR_TXE ≠ 0)]
        split_ifs <;> simp_all
  · intro tx rx len sched hlen hret
    obtain ⟨h1, h2, h3, h4⟩ := transfer_success_state tx rx len sched hret
    exact ⟨h3, h4, h1, h2⟩

/-- Concrete schedule used to witness C5: during the first wait iteration the
hardware raises a TXE interrupt (the command byte is sent) and then a
combined TXE+RXNE interrupt (the reply byte 0x5A arrives and the handler
marks completion). -/
def sched0 : Nat → List (Nat × Nat) := fun i =>
  if i = 0 then [(2, 0), (3, 0x5A)] else []

/-- Witness for C5 at concrete inputs: a completing handler invocation with
snapshot sr = 2 (TXE), cr2 = 224 (all three enables) on a context with both
cursors at the length, and a concrete successful 1-byte transfer. -/
theorem handler_completion_spec_witness :
    ((spi0_interrupt_handler 2 224 0
        { tx_buffer := [0xAB], rx_buffer := [0x5A], tx_index := 1, rx_index := 1,
          total_bytes := 1, transfer_complete := false, error_occurred := false,
          interrupt_count := 2 }).1.transfer_complete = true ∧
      (spi0_interrupt_handler 2 224 0
        { tx_buffer := [0xAB], rx_buffer := [0x5A], tx_index := 1, rx_index := 1,
          total_bytes := 1, transfer_complete := false, error_occurred := false,
          interrupt_count := 2 }).2.cr2Write =
        some (224 &&& (0xFFFFFFFF ^^^ (SPI_CR2_TXEIE ||| SPI_CR2_RXNEIE))) ∧
      (224 &&& (0xFFFFFFFF ^^^ (SPI_CR2_TXEIE ||| SPI_CR2_RXNEIE))) &&&
        SPI_CR2_TXEIE = 0 ∧
      (224 &&& (0xFFFFFFFF ^^^ (SPI_CR2_TXEIE ||| SPI_CR2_RXNEIE))) &&&
        SPI_CR2_RXNEIE = 0) ∧
    ((g233_spi_transfer_interrupt [0xAB] [0] 1 sched0).finalState.tx_index = 1 ∧
      (g233_spi_transfer_interrupt [0xAB] [0] 1 sched0).finalState.rx_index = 1 ∧
      (g233_spi_transfer_interrupt [0xAB] [0] 1 sched0).finalState.transfer_complete = true ∧
      (g233_spi_transfer_interrupt [0xAB] [0] 1 sched0).finalState.error_occurred = false) :=
  ⟨handler_completion_spec.1 2 224 0
      { tx_buffer := [0xAB], rx_buffer := [0x5A], tx_index := 1, rx_index := 1,
        total_bytes := 1, transfer_complete := false, error_occurred := false,
        interrupt_count := 2 }
      (by decide) (by decide) (by decide) (by decide) (by decide),
    handler_completion_spec.2 [0xAB] [0] 1 sched0 (by decide) (by decide)⟩

/-- Claim C6: (first part) when receive-not-empty is signaled and enabled and
the error branch is not taken, the handler reads the data register exactly
once; below `total_bytes` the received byte (masked to 8 bits) is stored at
`rx_index` and the cursor advances by one, otherwise the byte is discarded
and the cursor stays where it is (in particular at `total_bytes`); and
(second part) every handler invocation, whatever the snapshot, preserves the
invariant that both cursors are at most `total_bytes`. -/
theorem handler_receive_spec :
    (∀ sr cr2 dr : Nat, ∀ s : spi_transfer_state_t,
      cr2 &&& SPI_CR2_RXNEIE ≠ 0 → sr &&& SPI_SR_RXNE ≠ 0 →
      ¬(cr2 &&& SPI_CR2_ERRIE ≠ 0 ∧ sr &&& (SPI_SR_UDR ||| SPI_SR_OVR) ≠ 0) →
      (spi0_interrupt_handler sr cr2 dr s).2.drReads = 1 ∧
      (s.rx_index < s.total_bytes →
        (spi0_interrupt_handler sr cr2 dr s).1.rx_buffer =
          s.rx_buffer.set s.rx_index (dr &&& 0xFF) ∧
        (spi0_interrupt_handler sr cr2 dr s).1.rx_index = s.rx_index + 1) ∧
      (s.total_bytes ≤ s.rx_index →
        (spi0_interrupt_handler sr cr2 dr s).1.rx_buffer = s.rx_buffer ∧
        (spi0_interrupt_handler sr cr2 dr s).1.rx_index = s.rx_index)) ∧
    (∀ sr cr2 dr : Nat, ∀ s : spi_transfer_state_t,
      s.tx_index ≤ s.total_bytes → s.rx_index ≤ s.total_bytes →
      (spi0_interrupt_handler sr cr2 dr s).1.tx_index ≤
        (spi0_interrupt_handler sr cr2 dr s).1.total_bytes ∧
      (spi0_interrupt_handler sr cr2 dr s).1.rx_index ≤
        (spi0_interrupt_handler sr cr2 dr s).1.total_bytes) := by
  constructor
  · intro sr cr2 dr s hrxe hrxs hnoerr
    refine ⟨?_, ?_, ?_⟩
    · unfold spi0_interrupt_handler
      dsimp only
      rw [if_neg hnoerr]
      split_ifs <;> simp_all
    · intro hlt
      unfold spi0_interrupt_handler
      dsimp only
      rw [if_neg hnoerr]
      split_ifs <;> simp_all
    · intro hge
      unfold spi0_interrupt_handler
      dsimp only
      rw [if_neg hnoerr]
      split_ifs <;> simp_all <;> omega
  · intro sr cr2 dr s htx hrx
    unfold spi0_interrupt_handler
    dsimp only
    split_ifs <;> simp_all <;> omega

/-- Witness for C6 at concrete inputs: a receive interrupt that reads the
data register once and stores the masked byte below the bound, and an
invariant-preservation instance. -/
theorem handler_receive_spec_witness :
    (spi0_interrupt_handler 1 224 0x15A
        { tx_buffer := [0xAB, 0xCD], rx_buffer := [0, 0], tx_index := 2,
          rx_index := 1, total_bytes := 2, transfer_complete := false,
          error_occurred := false, interrupt_count := 7 }).2.drReads = 1 ∧
    (spi0_interrupt_handler 1 224 0x15A
        { tx_buffer := [0xAB, 0xCD], rx_buffer := [0, 0], tx_index := 2,
          rx_index := 1, total_bytes := 2, transfer_complete := false,
          error_occurred := false, interrupt_count := 7 }).1.rx_index = 2 ∧
    (spi0_interrupt_handler 3 224 0
        { tx_buffer := [0xAB, 0xCD], rx_buffer := [0, 0], tx_index := 1,
          rx_index := 1, total_bytes := 2, transfer_complete := false,
          error_occurred := false, interrupt_count := 7 }).1.rx_index ≤
      (spi0_interrupt_handler 3 224 0
        { tx_buffer := [0xAB, 0xCD], rx_buffer := [0, 0], tx_index := 1,
          rx_index := 1, total_bytes := 2, transfer_complete := false,
          error_occurred := false, interrupt_count := 7 }).1.total_bytes :=
  ⟨(handler_receive_spec.1 1 224 0x15A
      { tx_buffer := [0xAB, 0xCD], rx_buffer := [0, 0], tx_index := 2,
        rx_index := 1, total_bytes := 2, transfer_complete := false,
        error_occurred := false, interrupt_count := 7 }
      (by decide) (by decide) (by decide)).1,
    ((handler_receive_spec.1 1 224 0x15A
      { tx_buffer := [0xAB, 0xCD], rx_buffer := [0, 0], tx_index := 2,
        rx_index := 1, total_bytes := 2, transfer_complete := false,
        error_occurred := false, interrupt_count := 7 }
      (by decide) (by decide) (by decide)).2.1 (by decide)).2,
    (handler_receive_spec.2 3 224 0
      { tx_buffer := [0xAB, 0xCD], rx_buffer := [0, 0], tx_index := 1,
        rx_index := 1, total_bytes := 2, transfer_complete := false,
        error_occurred := false, interrupt_count := 7 }
      (by decide) (by decide)).2⟩

/-- Claim C7: `flash_read_jedec_id` consults exactly one transaction — the
4-byte one with command 0x9F and three dummy bytes (two oracles agreeing on
that transaction give the same result); on success it assembles the ID from
received bytes 1, 2 and 3, ignoring byte 0; and a device replying with ID
bytes 0xEF, 0x30, 0x15 in those positions yields 0xEF3015. -/
theorem flash_read_jedec_id_spec :
    (∀ spi spiB : TransferOracle,
      spi [0x9F, 0x00, 0x00, 0x00] 4 = spiB [0x9F, 0x00, 0x00, 0x00] 4 →
      flash_read_jedec_id spi = flash_read_jedec_id spiB) ∧
    (∀ spi : TransferOracle, ∀ rx : List Nat,
      spi [0x9F, 0x00, 0x00, 0x00] 4 = (0, rx) →
      flash_read_jedec_id spi =
        ((rx.getD 1 0) <<< 16) ||| ((rx.getD 2 0) <<< 8) ||| rx.getD 3 0) ∧
    (∀ spi : TransferOracle, ∀ b0 : Nat,
      spi [0x9F, 0x00, 0x00, 0x00] 4 = (0, [b0, 0xEF, 0x30, 0x15]) →
      flash_read_jedec_id spi = 0xEF3015) := by
  have hsuccess : ∀ spi : TransferOracle, ∀ rx : List Nat,
      spi [0x9F, 0x00, 0x00, 0x00] 4 = (0, rx) →
      flash_read_jedec_id spi =
        ((rx.getD 1 0) <<< 16) ||| ((rx.getD 2 0) <<< 8) ||| rx.getD 3 0 := by
    intro spi rx h
    unfold flash_read_jedec_id
    dsimp only
    rw [h]
    rfl
  refine ⟨?_, hsuccess, ?_⟩
  · intro spi spiB h
    unfold flash_read_jedec_id
    dsimp only
    rw [h]
  · intro spi b0 h
    rw [hsuccess spi [b0, 0xEF, 0x30, 0x15] h]
    show (0xEF <<< 16) ||| (0x30 <<< 8) ||| (0x15 : Nat) = 0xEF3015
    decide

/-- Witness for C7: a concrete oracle answering the JEDEC transaction with
reply bytes 0xAA, 0xEF, 0x30, 0x15 makes `flash_read_jedec_id` return
0xEF3015. -/
theorem flash_read_jedec_id_spec_witness :
    flash_read_jedec_id (fun _ _ => (0, [0xAA, 0xEF, 0x30, 0x15])) = 0xEF3015 :=
  flash_read_jedec_id_spec.2.2 (fun _ _ => (0, [0xAA, 0xEF, 0x30, 0x15])) 0xAA rfl

/-- Claim C8: for chip-select lines 0 and 1 and any prior register value,
`g233_spi_cs_assert` leaves exactly the requested line's enable bit (bit
`line`) and active bit (bit `line + 4`) set and every other line's bits
clear; `g233_spi_cs_deassert` clears all chip-select state; and asserting
line 1 directly after asserting line 0 leaves exactly line 1 active. -/
theorem cs_assert_exclusive (csctrlOld : Nat) (cs : Nat)
    (h : cs = FLASH_CS0 ∨ cs = FLASH_CS1) :
    (∀ line : Fin 4,
      ((g233_spi_cs_assert cs csctrlOld).testBit line.val = true ↔ line.val = cs) ∧
      ((g233_spi_cs_assert cs csctrlOld).testBit (line.val + 4) = true ↔ line.val = cs)) ∧
    g233_spi_cs_deassert = 0 ∧
    (∀ old2 : Nat,
      g233_spi_cs_assert FLASH_CS1 (g233_spi_cs_assert FLASH_CS0 old2) =
        SPI_CSCTRL_CS1_EN ||| SPI_CSCTRL_CS1_ACT) := by
  rcases h with h | h <;> subst h
  · rw [show g233_spi_cs_assert FLASH_CS0 csctrlOld = 0x11 from rfl]
    exact ⟨by decide, rfl, fun old2 => rfl⟩
  · rw [show g233_spi_cs_assert FLASH_CS1 csctrlOld = 0x22 from rfl]
    exact ⟨by decide, rfl, fun old2 => rfl⟩

/-- Witness for C8: asserting line 1 over the prior register value 0x33 sets
its enable and active bits, deassert clears everything, and asserting line 1
right after line 0 yields exactly line 1's bit pair. -/
theorem cs_assert_exclusive_witness :
    ((g233_spi_cs_assert FLASH_CS1 0x33).testBit 1 = true ↔ (1 : Nat) = FLASH_CS1) ∧
    ((g233_spi_cs_assert FLASH_CS1 0x33).testBit 5 = true ↔ (1 : Nat) = FLASH_CS1) ∧
    g233_spi_cs_deassert = 0 ∧
    g233_spi_cs_assert FLASH_CS1 (g233_spi_cs_assert FLASH_CS0 0x77) =
      SPI_CSCTRL_CS1_EN ||| SPI_CSCTRL_CS1_ACT :=
  ⟨((cs_assert_exclusive 0x33 FLASH_CS1 (Or.inr rfl)).1 ⟨1, by decide⟩).1,
   ((cs_assert_exclusive 0x33 FLASH_CS1 (Or.inr rfl)).1 ⟨1, by decide⟩).2,
   (cs_assert_exclusive 0x33 FLASH_CS1 (Or.inr rfl)).2.1,
   (cs_assert_exclusive 0x33 FLASH_CS1 (Or.inr rfl)).2.2 0x77⟩

/-- Claim C9: when the underlying transfer of `flash_read_status` fails (any
non-zero result), the function returns the default 0xFF — whose busy bit
(bit 0) is set — rather than any received byte; on success it returns the
second received byte. -/
theorem flash_read_status_spec (spi : TransferOracle) (r : Int) (rx : List Nat)
    (h : spi [0x05, 0x00] 2 = (r, rx)) :
    (r ≠ 0 → flash_read_status spi = 0xFF ∧ flash_read_status spi &&& 0x01 ≠ 0) ∧
    (r = 0 → flash_read_status spi = rx.getD 1 0) := by
  unfold flash_read_status
  dsimp only
  rw [h]
  dsimp only
  constructor
  · intro hr
    rw [if_neg hr]
    exact ⟨rfl, by decide⟩
  · intro hr
    rw [if_pos hr]

/-- Witness for C9: a failing oracle makes `flash_read_status` return the
busy default 0xFF, and a succeeding oracle makes it return the second
received byte. -/
theorem flash_read_status_spec_witness :
    (flash_read_status (fun _ _ => (-1, [])) = 0xFF ∧
      flash_read_status (fun _ _ => (-1, [])) &&& 0x01 ≠ 0) ∧
    flash_read_status (fun _ _ => (0, [0x05, 0x3C])) = [0x05, 0x3C].getD 1 0 :=
  ⟨(flash_read_status_spec (fun _ _ => (-1, [])) (-1) [] rfl).1 (by decide),
   (flash_read_status_spec (fun _ _ => (0, [0x05, 0x3C])) 0 [0x05, 0x3C] rfl).2 rfl⟩

/-- Claim C10: on every handler invocation that writes control register 2 —
the handler writes it exactly when it marks the transfer complete, however
the cursors reached the transaction length (including when the final byte is
received in the same call) — the value written back differs from the
snapshot only in the TXE-enable (bit 7) and RXNE-enable (bit 6) positions,
which are cleared; every other bit — in particular the
error-interrupt-enable ERRIE (bit 5) — is written back unchanged. -/
theorem handler_cr2_write_frame (sr cr2 dr : Nat) (s : spi_transfer_state_t)
    (hcr2 : cr2 < 2 ^ 32) (w : Nat)
    (hw : (spi0_interrupt_handler sr cr2 dr s).2.cr2Write = some w) :
    (spi0_interrupt_handler sr cr2 dr s).1.transfer_complete = true ∧
    w.testBit 7 = false ∧ w.testBit 6 = false ∧
    (∀ i : Nat, i ≠ 7 → i ≠ 6 → w.testBit i = cr2.testBit i) := by
  have hkey : w = cr2 &&& (0xFFFFFFFF ^^^ (SPI_CR2_TXEIE ||| SPI_CR2_RXNEIE)) ∧
      (spi0_interrupt_handler sr cr2 dr s).1.transfer_complete = true := by
    unfold spi0_interrupt_handler at hw ⊢
    dsimp only at hw ⊢
    split_ifs at hw ⊢ <;> simp_all
  obtain ⟨hweq, hcompl⟩ := hkey
  subst hweq
  refine ⟨hcompl, ?_, ?_, ?_⟩
  · rw [Nat.testBit_land,
      show Nat.testBit (0xFFFFFFFF ^^^ (SPI_CR2_TXEIE ||| SPI_CR2_RXNEIE)) 7 = false
        from by decide, Bool.and_false]
  · rw [Nat.testBit_land,
      show Nat.testBit (0xFFFFFFFF ^^^ (SPI_CR2_TXEIE ||| SPI_CR2_RXNEIE)) 6 = false
        from by decide, Bool.and_false]
  · intro i h7 h6
    rw [Nat.testBit_land]
    by_cases hi : i < 32
    · have hb : ∀ j, j < 32 → j ≠ 7 → j ≠ 6 →
          Nat.testBit (0xFFFFFFFF ^^^ (SPI_CR2_TXEIE ||| SPI_CR2_RXNEIE)) j = true := by
        decide
      rw [hb i hi h7 h6, Bool.and_true]
    · have hle : (2 : Nat) ^ 32 ≤ 2 ^ i :=
        Nat.pow_le_pow_right (by norm_num) (by omega)
      have h1 : cr2.testBit i = false :=
        Nat.testBit_eq_false_of_lt (lt_of_lt_of_le hcr2 hle)
      have h2 : Nat.testBit (0xFFFFFFFF ^^^ (SPI_CR2_TXEIE ||| SPI_CR2_RXNEIE)) i = false :=
        Nat.testBit_eq_false_of_lt (lt_of_lt_of_le (by decide) hle)
      rw [h1, h2]
      rfl

/-- Witness for C10: the typical completion path, in which the final byte
arrives in the same invocation — snapshot sr = 3 (TXE and RXNE), cr2 = 224
(all three interrupt enables), entry rx_index one short of the length.  The
handler writes back 32 = 224 with bits 7 and 6 cleared: ERRIE (bit 5) and
all other bits are unchanged. -/
theorem handler_cr2_write_frame_witness :
    (spi0_interrupt_handler 3 224 0x5A
        { tx_buffer := [0xAB], rx_buffer := [0], tx_index := 1, rx_index := 0,
          total_bytes := 1, transfer_complete := false, error_occurred := false,
          interrupt_count := 1 }).1.transfer_complete = true ∧
    Nat.testBit 32 7 = false ∧ Nat.testBit 32 6 = false ∧
    (∀ i : Nat, i ≠ 7 → i ≠ 6 → Nat.testBit 32 i = Nat.testBit 224 i) :=
  handler_cr2_write_frame 3 224 0x5A
    { tx_buffer := [0xAB], rx_buffer := [0], tx_index := 1, rx_index := 0,
      total_bytes := 1, transfer_complete := false, error_occurred := false,
      interrupt_count := 1 }
    (by decide) 32 (by decide)
